import Mathlib

/-!
Verification of the CraftsFusion storefront backend (`main.py`).

The embedding models:
* stored documents as association lists of string keys to BSON-like values;
* the document-store adapter (`database` module: `db`, `create_document`,
  `get_documents`), which is part of the repository but not present in the
  sources, modelled from the spec (§2, §6);
* the route handlers `list_products`, `seed_products`, `test_database`
  and the transformation `ProductOut.from_mongo` from `main.py`.

Machine floats only appear as non-negative decimal prices; they are modelled
as rationals (no float arithmetic happens in the code beyond conversion).
Fallible Python code (exceptions) is modelled with `Except`.
-/

/-- A BSON-like value stored in a document: null, a string, a number, or a
store-assigned object id (modelled by a natural, displayed in decimal). -/
inductive Value where
  | null : Value
  | str (s : String) : Value
  | num (q : Rat) : Value
  | objId (n : Nat) : Value
deriving DecidableEq

/-- A stored document: an association list from field names to values,
modelling a Python `dict`. -/
abbrev Doc := List (String × Value)

/-- `doc.get(k)` with no default: `none` when the key is absent. -/
def docGet (doc : Doc) (k : String) : Option Value :=
  List.lookup k doc

/-- Python `str(v)` on a stored value (only the cases a document can hold). -/
def pyStr : Value → String
  | Value.null => "None"
  | Value.str s => s
  | Value.num q => toString q
  | Value.objId n => toString n

/-- Python `str(doc.get(k))` where a missing key yields `None`. -/
def pyStrOpt : Option Value → String
  | none => "None"
  | some v => pyStr v

/-- Digits of a decimal literal folded into a natural number. -/
def natFromDigits (l : List Char) : Nat :=
  l.foldl (fun a c => a * 10 + (c.toNat - 48)) 0

/-- Python `float(s)` on a string: parses an optionally signed plain decimal
literal (exponent and inf/nan forms are not exercised by this code base). -/
def parseDecimal (s : String) : Option Rat :=
  let cs := s.trim.data
  let signed : Int × List Char :=
    match cs with
    | '-' :: t => (-1, t)
    | '+' :: t => (1, t)
    | _ => (1, cs)
  let sign := signed.1
  let body := signed.2
  match body.splitOn '.' with
  | [ip] =>
      if ip ≠ [] ∧ ip.all Char.isDigit then
        some ((sign : Rat) * (natFromDigits ip : Rat))
      else none
  | [ip, fp] =>
      if (ip ≠ [] ∨ fp ≠ []) ∧ ip.all Char.isDigit ∧ fp.all Char.isDigit then
        some ((sign : Rat) *
          ((natFromDigits ip : Rat) + (natFromDigits fp : Rat) / (10 : Rat) ^ fp.length))
      else none
  | _ => none

/-- Python `float(v)`: succeeds on numbers and numeric strings, raises
`TypeError` on `None` and other non-numeric values. -/
def pyFloat : Value → Except String Rat
  | Value.num q => Except.ok q
  | Value.str s =>
      match parseDecimal s with
      | some q => Except.ok q
      | none => Except.error "ValueError: could not convert string to float"
  | Value.null => Except.error "TypeError: float() argument must be a string or a real number, not NoneType"
  | Value.objId _ => Except.error "TypeError: float() argument must be a string or a real number"

/-- Pydantic validation of a required `str` field extracted by
`doc.get(k, dflt)`: a missing key yields the default, a present value must be
a string. -/
def strField (v : Option Value) (dflt : String) : Except String String :=
  match v with
  | none => Except.ok dflt
  | some (Value.str s) => Except.ok s
  | some _ => Except.error "ValidationError: Input should be a valid string"

/-- Pydantic validation of an `Optional[str]` field extracted by `doc.get(k)`:
a missing key or a null value yields `none`, a present value must be a
string. -/
def optStrField (v : Option Value) : Except String (Option String) :=
  match v with
  | none => Except.ok none
  | some Value.null => Except.ok none
  | some (Value.str s) => Except.ok (some s)
  | some _ => Except.error "ValidationError: Input should be a valid string"

/-- API-facing product representation (`ProductOut` in `main.py`). -/
structure ProductOut where
  id : String
  title : String
  description : Option String
  price : Rat
  category : String
  image : Option String
  tag : Option String
  color : Option String
deriving DecidableEq

/-- `ProductOut.from_mongo(doc)` from `main.py`: extracts fields with
defaults and converts the price with `float(...)`.  Argument evaluation
performs `float(doc.get("price", 0))` before pydantic validates the string
fields in declaration order; any raised exception is an `Except.error`. -/
def ProductOut.from_mongo (doc : Doc) : Except String ProductOut :=
  match pyFloat ((docGet doc "price").getD (Value.num 0)) with
  | Except.error e => Except.error e
  | Except.ok price =>
  match strField (docGet doc "title") "" with
  | Except.error e => Except.error e
  | Except.ok title =>
  match optStrField (docGet doc "description") with
  | Except.error e => Except.error e
  | Except.ok description =>
  match strField (docGet doc "category") "" with
  | Except.error e => Except.error e
  | Except.ok category =>
  match optStrField (docGet doc "image") with
  | Except.error e => Except.error e
  | Except.ok image =>
  match optStrField (docGet doc "tag") with
  | Except.error e => Except.error e
  | Except.ok tag =>
  match optStrField (docGet doc "color") with
  | Except.error e => Except.error e
  | Except.ok color =>
      Except.ok ⟨pyStrOpt (docGet doc "_id"), title, description, price,
        category, image, tag, color⟩

/-- Lower-case a string character by character. -/
def lowerStr (s : String) : String :=
  String.mk (s.data.map Char.toLower)

/-- `startsWithChars needle hay`: `needle` is a prefix of `hay`. -/
def startsWithChars : List Char → List Char → Bool
  | [], _ => true
  | _ :: _, [] => false
  | a :: as, b :: bs => a == b && startsWithChars as bs

/-- `containsSub hay needle`: `needle` occurs contiguously inside `hay`. -/
def containsSub : List Char → List Char → Bool
  | hay, needle =>
    match hay with
    | [] => needle.isEmpty
    | _ :: t => startsWithChars needle hay || containsSub t needle

/-- Case-insensitive substring test on strings. -/
def containsCI (t q : String) : Bool :=
  containsSub (lowerStr t).data (lowerStr q).data

/-- The filter dictionary built by `list_products`: an optional exact-match
constraint on `category` and an optional case-insensitive title constraint
(`{"$regex": q, "$options": "i"}`). -/
structure Filt where
  category : Option String
  title : Option String
deriving DecidableEq

/-- The empty filter `{}`. -/
def Filt.empty : Filt := ⟨none, none⟩

/-- Modelled from the spec: the document store's filter semantics, which live
in the external store behind the missing `database` module — "exact match on
`category` if provided; case-insensitive substring match on `title` if `q`
provided. Both filters combine with logical AND" (spec §4.2). -/
def matchesFilt (f : Filt) (doc : Doc) : Bool :=
  (match f.category with
   | none => true
   | some c => docGet doc "category" == some (Value.str c)) &&
  (match f.title with
   | none => true
   | some q =>
     match docGet doc "title" with
     | some (Value.str t) => containsCI t q
     | _ => false)

/-- Modelled from the spec: the document database behind the missing
`database` module — named collections of schema-less records (spec §2, §6,
Glossary), with a counter for store-assigned identifiers. -/
structure DB where
  colls : List (String × List Doc)
  nextId : Nat
deriving DecidableEq

/-- Documents of a named collection (empty when the collection is absent,
as in MongoDB). -/
def getColl (d : DB) (c : String) : List Doc :=
  (List.lookup c d.colls).getD []

/-- Replace (or create) a named collection in the association list. -/
def setColl : List (String × List Doc) → String → List Doc → List (String × List Doc)
  | [], c, ds => [(c, ds)]
  | (k, v) :: t, c, ds => if k == c then (c, ds) :: t else (k, v) :: setColl t c ds

/-- Modelled from the spec: `get_documents(collection, filter)` of the missing
`database` module — `query(collection, filter) -> sequence of records`
(spec §6), returning the collection's records that satisfy the filter, in
store-native order. -/
def get_documents (d : DB) (c : String) (f : Filt) : List Doc :=
  (getColl d c).filter (matchesFilt f)

/-- Payload for product creation (`ProductCreate` in `main.py`). -/
structure ProductCreate where
  title : String
  description : Option String
  price : Rat
  category : String
  image : Option String
  tag : Option String
  color : Option String
deriving DecidableEq

/-- Serialization of an optional field into a stored value. -/
def optToVal : Option String → Value
  | none => Value.null
  | some s => Value.str s

/-- Modelled from the spec: serialization performed by the missing
`create_document` when inserting a record — the record's fields stored
as-is plus the store-assigned `_id` (spec §3, §6). -/
def toDoc (p : ProductCreate) (n : Nat) : Doc :=
  [("_id", Value.objId n),
   ("title", Value.str p.title),
   ("description", optToVal p.description),
   ("price", Value.num p.price),
   ("category", Value.str p.category),
   ("image", optToVal p.image),
   ("tag", optToVal p.tag),
   ("color", optToVal p.color)]

/-- Modelled from the spec: `create_document(collection, record) -> id` of the
missing `database` module (spec §6) — appends the serialized record to the
collection and returns the store-assigned identifier. -/
def create_document (c : String) (p : ProductCreate) (d : DB) : DB × Nat :=
  (⟨setColl d.colls c (getColl d c ++ [toDoc p d.nextId]), d.nextId + 1⟩, d.nextId)

/-- Errors a route handler can end in: an explicit
`HTTPException(status_code, detail)`, or an uncaught exception that FastAPI
turns into a generic internal server error. -/
inductive ApiError where
  | httpException (statusCode : Nat) (detail : String) : ApiError
  | internalServerError (msg : String) : ApiError
deriving DecidableEq

/-- Python truthiness of an `Optional[str]`: `None` and `""` are falsy. -/
def truthy : Option String → Bool
  | none => false
  | some s => s != ""

/-- The list comprehension `[ProductOut.from_mongo(d) for d in docs]`,
evaluated left to right, stopping at the first raised exception. -/
def mapFromMongo : List Doc → Except String (List ProductOut)
  | [] => Except.ok []
  | d :: t =>
    match ProductOut.from_mongo d with
    | Except.error e => Except.error e
    | Except.ok p =>
      match mapFromMongo t with
      | Except.error e => Except.error e
      | Except.ok ps => Except.ok (p :: ps)

/-- `GET /api/products` (`list_products` in `main.py`): fails with
`HTTPException(500, "Database not available")` when the store handle `db` is
`None`; otherwise builds the filter from the truthy query parameters, queries
the `product` collection and maps the documents through `from_mongo`. -/
def list_products (db : Option DB) (category q : Option String) :
    Except ApiError (List ProductOut) :=
  match db with
  | none => Except.error (ApiError.httpException 500 "Database not available")
  | some d =>
    let filt : Filt :=
      ⟨if truthy category then category else none,
       if truthy q then q else none⟩
    match mapFromMongo (get_documents d "product" filt) with
    | Except.error e => Except.error (ApiError.internalServerError e)
    | Except.ok l => Except.ok l

/-- The fixed list of 6 sample products seeded by `seed_products`. -/
def seed_data : List ProductCreate :=
  [⟨"Moonlit Petal Gown",
    some "Flowing chiffon gown with iridescent petals and a subtle stardust shimmer.",
    189, "Dresses",
    some "https://images.unsplash.com/photo-1520975922284-7bcd429ebfd5?q=80&w=1600&auto=format&fit=crop",
    some "New", some "#FDE3E3"⟩,
   ⟨"Sylvan Whisper Blouse",
    some "Sheer organza blouse with embroidered leaves and pearl buttons.",
    79, "Tops",
    some "https://images.unsplash.com/photo-1520975940279-d6cc6e4be0c3?q=80&w=1600&auto=format&fit=crop",
    some "Trending", some "#E8F5E9"⟩,
   ⟨"Aurora Veil Skirt",
    some "Layered tulle midi skirt that shifts color like the northern lights.",
    98, "Bottoms",
    some "https://images.unsplash.com/photo-1503342330407-5a4cd4fd63d6?q=80&w=1600&auto=format&fit=crop",
    some "Bestseller", some "#EDE7F6"⟩,
   ⟨"Glimmerleaf Headband",
    some "Delicate headband with glass leaves and starlit crystals.",
    32, "Accessories",
    some "https://images.unsplash.com/photo-1522335789203-aabd1fc54bc9?q=80&w=1600&auto=format&fit=crop",
    some "Limited", some "#FFF8E1"⟩,
   ⟨"Stardrop Perfume Satchel",
    some "Velvet micro bag adorned with a vintage atomizer charm.",
    56, "Bags",
    some "https://images.unsplash.com/photo-1555529669-e69e7aa0ba9a?q=80&w=1600&auto=format&fit=crop",
    some "Editor’s pick", some "#FFE0B2"⟩,
   ⟨"Petal Mist Kimono",
    some "Lightweight satin kimono with hand-painted florals and golden thread.",
    129, "Outerwear",
    some "https://images.unsplash.com/photo-1515378791036-0648a3ef77b2?q=80&w=1600&auto=format&fit=crop",
    some "New", some "#FFF3E0"⟩]

/-- `POST /api/products/seed` (`seed_products` in `main.py`): fails when the
store handle is `None`; if a product already exists (existence probe
`find({}).limit(1)`) it re-reads and returns the catalog unchanged; otherwise
it inserts the 6 sample products in order, then re-reads and returns the full
catalog.  Returns the post-call store state together with the response. -/
def seed_products (db : Option DB) : Except ApiError (DB × List ProductOut) :=
  match db with
  | none => Except.error (ApiError.httpException 500 "Database not available")
  | some d =>
    let existing := (getColl d "product").take 1
    if existing.isEmpty then
      let d1 := seed_data.foldl (fun st item => (create_document "product" item st).1) d
      match mapFromMongo (get_documents d1 "product" Filt.empty) with
      | Except.error e => Except.error (ApiError.internalServerError e)
      | Except.ok l => Except.ok (d1, l)
    else
      match mapFromMongo (get_documents d "product" Filt.empty) with
      | Except.error e => Except.error (ApiError.internalServerError e)
      | Except.ok l => Except.ok (d, l)

/-- A store with no collections at all (in particular an empty catalog). -/
def emptyDB : DB := ⟨[], 0⟩

/-- The store handle as the diagnostics endpoint sees it: its `name`
attribute and the outcome of `list_collection_names()`, which may raise
(modelled as `Except`). -/
structure DBHandle where
  name : String
  listCollectionNames : Except String (List String)

/-- The diagnostics response dictionary built by `test_database`. -/
structure DiagResponse where
  backend : String
  database : String
  database_url : Option String
  database_name : Option String
  connection_status : String
  collections : List String
deriving DecidableEq

/-- `GET /test` (`test_database` in `main.py`): builds a response dictionary,
probes the store inside `try`/`except` so that every failure becomes a status
string, truncates probe errors to 50 characters, keeps at most the first 10
collection names, and finally overwrites `database_url`/`database_name` from
the environment flags. -/
def test_database (db : Option DBHandle) (urlSet nameSet : Bool) : DiagResponse :=
  let r0 : DiagResponse :=
    ⟨"✅ Running", "❌ Not Available", none, none, "Not Connected", []⟩
  let r1 : DiagResponse :=
    match db with
    | some h =>
      let r : DiagResponse :=
        ⟨r0.backend, "✅ Available", some "✅ Configured", some h.name,
         "Connected", r0.collections⟩
      (match h.listCollectionNames with
       | Except.ok cols =>
         ⟨r.backend, "✅ Connected & Working", r.database_url, r.database_name,
          r.connection_status, cols.take 10⟩
       | Except.error e =>
         ⟨r.backend, "⚠️  Connected but Error: " ++ e.take 50, r.database_url,
          r.database_name, r.connection_status, r.collections⟩)
    | none =>
      ⟨r0.backend, "⚠️  Available but not initialized", r0.database_url,
       r0.database_name, r0.connection_status, r0.collections⟩
  ⟨r1.backend, r1.database,
   some (if urlSet then "✅ Set" else "❌ Not Set"),
   some (if nameSet then "✅ Set" else "❌ Not Set"),
   r1.connection_status, r1.collections⟩

deriving instance DecidableEq for Except

/-- The documents produced by inserting a list of records in order, starting
from identifier `n`. -/
def docsFrom : List ProductCreate → Nat → List Doc
  | [], _ => []
  | p :: t, n => toDoc p n :: docsFrom t (n + 1)

/-- The API views of the records inserted in order from identifier `n`. -/
def viewsFrom : List ProductCreate → Nat → List ProductOut
  | [], _ => []
  | p :: t, n =>
    ⟨toString n, p.title, p.description, p.price, p.category, p.image, p.tag,
      p.color⟩ :: viewsFrom t (n + 1)

/-- A required-string slot is well-typed when absent or a string. -/
def fieldOkStr : Option Value → Bool
  | none => true
  | some (Value.str _) => true
  | some _ => false

/-- An optional-string slot is well-typed when absent, null or a string. -/
def fieldOkOptStr : Option Value → Bool
  | none => true
  | some Value.null => true
  | some (Value.str _) => true
  | some _ => false

/-- The price slot is well-typed when absent or numeric. -/
def fieldOkPrice : Option Value → Bool
  | none => true
  | some (Value.num _) => true
  | some _ => false

/-- A document whose fields fit the product view: title and category absent
or strings, price absent or numeric, the optional fields absent, null or
strings. -/
def docWellTyped (doc : Doc) : Bool :=
  fieldOkPrice (docGet doc "price") &&
  fieldOkStr (docGet doc "title") &&
  fieldOkOptStr (docGet doc "description") &&
  fieldOkStr (docGet doc "category") &&
  fieldOkOptStr (docGet doc "image") &&
  fieldOkOptStr (docGet doc "tag") &&
  fieldOkOptStr (docGet doc "color")

/-!  Helper lemmas. -/

/-- Successful `from_mongo` determines every field of the view. -/
theorem from_mongo_ok {doc : Doc} {p : ProductOut}
    (hp : ProductOut.from_mongo doc = Except.ok p) :
    pyFloat ((docGet doc "price").getD (Value.num 0)) = Except.ok p.price ∧
    strField (docGet doc "title") "" = Except.ok p.title ∧
    optStrField (docGet doc "description") = Except.ok p.description ∧
    strField (docGet doc "category") "" = Except.ok p.category ∧
    optStrField (docGet doc "image") = Except.ok p.image ∧
    optStrField (docGet doc "tag") = Except.ok p.tag ∧
    optStrField (docGet doc "color") = Except.ok p.color ∧
    p.id = pyStrOpt (docGet doc "_id") := by
  unfold ProductOut.from_mongo at hp
  repeat' split at hp
  all_goals try exact Except.noConfusion hp
  injection hp with h
  subst h
  refine ⟨?_, ?_, ?_, ?_, ?_, ?_, ?_, rfl⟩ <;> assumption

/-- Every element of a successful `mapFromMongo` run comes from a document of
the input list. -/
theorem mapFromMongo_mem {docs : List Doc} {l : List ProductOut}
    (h : mapFromMongo docs = Except.ok l) :
    ∀ p ∈ l, ∃ d ∈ docs, ProductOut.from_mongo d = Except.ok p := by
  induction docs generalizing l with
  | nil =>
    intro p hp
    simp only [mapFromMongo, Except.ok.injEq] at h
    subst h
    simp at hp
  | cons d t ih =>
    intro p hp
    unfold mapFromMongo at h
    cases hfd : ProductOut.from_mongo d with
    | error e => rw [hfd] at h; exact Except.noConfusion h
    | ok q =>
      rw [hfd] at h
      cases hmt : mapFromMongo t with
      | error e => rw [hmt] at h; exact Except.noConfusion h
      | ok ps =>
        rw [hmt] at h
        simp only [Except.ok.injEq] at h
        subst h
        rcases List.mem_cons.mp hp with rfl | hp2
        · exact ⟨d, List.mem_cons_self d t, hfd⟩
        · obtain ⟨d2, hd2, hfd2⟩ := ih hmt p hp2
          exact ⟨d2, List.mem_cons_of_mem d hd2, hfd2⟩

/-- Looking up a collection right after writing it returns what was
written. -/
theorem getColl_setColl (l : List (String × List Doc)) (n : Nat) (c : String)
    (v : List Doc) : getColl ⟨setColl l c v, n⟩ c = v := by
  induction l with
  | nil => simp [getColl, setColl, List.lookup]
  | cons kv t ih =>
    obtain ⟨k, w⟩ := kv
    by_cases hk : k = c
    · subst hk
      simp [getColl, setColl, List.lookup]
    · have hkc : (k == c) = false := beq_eq_false_iff_ne.mpr hk
      have hck : (c == k) = false := beq_eq_false_iff_ne.mpr (Ne.symm hk)
      have hs : setColl ((k, w) :: t) c v = (k, w) :: setColl t c v := by
        simp [setColl, hkc]
      rw [hs]
      simpa [getColl, List.lookup, hck] using ih

/-- Writing other collections does not change a collection's contents. -/
theorem getColl_setColl_ne (l : List (String × List Doc)) (n : Nat)
    (c c2 : String) (v : List Doc) (h : c2 ≠ c) :
    getColl ⟨setColl l c2 v, n⟩ c = getColl ⟨l, n⟩ c := by
  have hcc2 : (c == c2) = false := beq_eq_false_iff_ne.mpr (Ne.symm h)
  induction l with
  | nil => simp [getColl, setColl, List.lookup, hcc2]
  | cons kv t ih =>
    obtain ⟨k, w⟩ := kv
    by_cases hk : k = c2
    · subst hk
      simp [getColl, setColl, List.lookup, hcc2]
    · have hkc2 : (k == c2) = false := beq_eq_false_iff_ne.mpr hk
      have hs : setColl ((k, w) :: t) c2 v = (k, w) :: setColl t c2 v := by
        simp [setColl, hkc2]
      rw [hs]
      cases hck : c == k with
      | true => simp [getColl, List.lookup, hck]
      | false => simpa [getColl, List.lookup, hck] using ih

/-- The empty filter accepts every document. -/
theorem matchesFilt_empty (doc : Doc) : matchesFilt Filt.empty doc = true := by
  simp [matchesFilt, Filt.empty]

/-- Querying with the empty filter returns the whole collection. -/
theorem get_documents_empty (d : DB) (c : String) :
    get_documents d c Filt.empty = getColl d c := by
  unfold get_documents
  exact List.filter_eq_self.mpr (fun a _ => matchesFilt_empty a)

/-- `from_mongo` inverts the insertion serialization. -/
theorem from_mongo_toDoc (p : ProductCreate) (n : Nat) :
    ProductOut.from_mongo (toDoc p n) =
      Except.ok ⟨toString n, p.title, p.description, p.price, p.category,
        p.image, p.tag, p.color⟩ := by
  obtain ⟨t, de, pr, ca, im, tg, co⟩ := p
  cases de <;> cases im <;> cases tg <;> cases co <;> rfl

/-- Reading back the documents inserted in order from identifier `n`. -/
theorem mapFromMongo_docsFrom (items : List ProductCreate) (n : Nat) :
    mapFromMongo (docsFrom items n) = Except.ok (viewsFrom items n) := by
  induction items generalizing n with
  | nil => rfl
  | cons p t ih =>
    simp [docsFrom, viewsFrom, mapFromMongo, from_mongo_toDoc, ih]

/-- Effect of the seed loop on the `product` collection and the counter. -/
theorem foldl_create (items : List ProductCreate) (d : DB) :
    getColl (items.foldl (fun st item => (create_document "product" item st).1) d) "product" =
      getColl d "product" ++ docsFrom items d.nextId ∧
    (items.foldl (fun st item => (create_document "product" item st).1) d).nextId =
      d.nextId + items.length := by
  induction items generalizing d with
  | nil => simp [docsFrom]
  | cons p t ih =>
    simp only [List.foldl_cons]
    obtain ⟨h1, h2⟩ := ih ((create_document "product" p d).1)
    constructor
    · rw [h1]
      simp [create_document, getColl_setColl, docsFrom]
    · rw [h2]
      simp [create_document]
      omega

/-- A well-typed required-string slot extracts successfully. -/
theorem strField_ok {v : Option Value} (dflt : String)
    (h : fieldOkStr v = true) : ∃ s, strField v dflt = Except.ok s := by
  cases v with
  | none => exact ⟨dflt, rfl⟩
  | some w => cases w <;> simp_all [fieldOkStr, strField]

/-- A well-typed optional-string slot extracts successfully. -/
theorem optStrField_ok {v : Option Value} (h : fieldOkOptStr v = true) :
    ∃ o, optStrField v = Except.ok o := by
  cases v with
  | none => exact ⟨none, rfl⟩
  | some w => cases w <;> simp_all [fieldOkOptStr, optStrField]

/-- A well-typed price slot converts successfully. -/
theorem pyFloat_ok {v : Option Value} (h : fieldOkPrice v = true) :
    ∃ q, pyFloat (v.getD (Value.num 0)) = Except.ok q := by
  cases v with
  | none => exact ⟨0, rfl⟩
  | some w => cases w <;> simp_all [fieldOkPrice, pyFloat]

/-- A document passing a filter with a title constraint has a string title
that contains the query case-insensitively. -/
theorem matchesFilt_title {f : Filt} {doc : Doc} {q : String}
    (hf : f.title = some q) (hm : matchesFilt f doc = true) :
    ∃ t, docGet doc "title" = some (Value.str t) ∧ containsCI t q = true := by
  unfold matchesFilt at hm
  rw [Bool.and_eq_true] at hm
  have h2 := hm.2
  rw [hf] at h2
  cases hdt : docGet doc "title" with
  | none => rw [hdt] at h2; exact Bool.noConfusion h2
  | some v =>
    rw [hdt] at h2
    cases v with
    | str t => exact ⟨t, rfl, h2⟩
    | null => exact Bool.noConfusion h2
    | num _ => exact Bool.noConfusion h2
    | objId _ => exact Bool.noConfusion h2

/-- A document passing a filter with a category constraint has exactly that
category value. -/
theorem matchesFilt_category {f : Filt} {doc : Doc} {c : String}
    (hf : f.category = some c) (hm : matchesFilt f doc = true) :
    docGet doc "category" = some (Value.str c) := by
  unfold matchesFilt at hm
  rw [Bool.and_eq_true] at hm
  have h1 := hm.1
  rw [hf] at h1
  exact eq_of_beq h1

/-- `from_mongo` succeeds on every well-typed document. -/
theorem from_mongo_ok_of_wellTyped (doc : Doc) (h : docWellTyped doc = true) :
    ∃ p : ProductOut, ProductOut.from_mongo doc = Except.ok p := by
  simp only [docWellTyped, Bool.and_eq_true] at h
  obtain ⟨⟨⟨⟨⟨⟨h1, h2⟩, h3⟩, h4⟩, h5⟩, h6⟩, h7⟩ := h
  obtain ⟨pr, hpr⟩ := pyFloat_ok h1
  obtain ⟨ti, hti⟩ := strField_ok "" h2
  obtain ⟨de, hde⟩ := optStrField_ok h3
  obtain ⟨ca, hca⟩ := strField_ok "" h4
  obtain ⟨im, him⟩ := optStrField_ok h5
  obtain ⟨tg, htg⟩ := optStrField_ok h6
  obtain ⟨co, hco⟩ := optStrField_ok h7
  refine ⟨⟨pyStrOpt (docGet doc "_id"), ti, de, pr, ca, im, tg, co⟩, ?_⟩
  unfold ProductOut.from_mongo
  rw [hpr, hti, hde, hca, him, htg, hco]

/-- The list comprehension succeeds on a list of well-typed documents. -/
theorem mapFromMongo_total {docs : List Doc}
    (h : ∀ doc ∈ docs, docWellTyped doc = true) :
    ∃ l, mapFromMongo docs = Except.ok l := by
  induction docs with
  | nil => exact ⟨[], rfl⟩
  | cons d t ih =>
    obtain ⟨p, hp⟩ := from_mongo_ok_of_wellTyped d (h d (List.mem_cons_self d t))
    obtain ⟨l, hl⟩ := ih (fun doc hdoc => h doc (List.mem_cons_of_mem d hdoc))
    refine ⟨p :: l, ?_⟩
    unfold mapFromMongo
    rw [hp, hl]

/-- A view built from a document with a string title keeps that title. -/
theorem from_mongo_title {doc : Doc} {p : ProductOut} {t : String}
    (hp : ProductOut.from_mongo doc = Except.ok p)
    (ht : docGet doc "title" = some (Value.str t)) : p.title = t := by
  have h := (from_mongo_ok hp).2.1
  rw [ht] at h
  simp only [strField, Except.ok.injEq] at h
  exact h.symm

/-- A view built from a document with a string category keeps that
category. -/
theorem from_mongo_category {doc : Doc} {p : ProductOut} {c : String}
    (hp : ProductOut.from_mongo doc = Except.ok p)
    (hc : docGet doc "category" = some (Value.str c)) : p.category = c := by
  have h := (from_mongo_ok hp).2.2.2.1
  rw [hc] at h
  simp only [strField, Except.ok.injEq] at h
  exact h.symm

/-!  Claim theorems. -/

/-- C3: the list and seed operations fail with the fixed
`HTTPException(500, "Database not available")` exactly when the store handle
is `None`; with an available store and an empty catalog, listing returns the
empty sequence rather than an error. -/
theorem listSeed_error_iff_db_none (db : Option DB) (c q : Option String) :
    (list_products db c q =
        Except.error (ApiError.httpException 500 "Database not available") ↔
      db = none) ∧
    (seed_products db =
        Except.error (ApiError.httpException 500 "Database not available") ↔
      db = none) ∧
    (∀ d : DB, db = some d → getColl d "product" = [] →
        list_products db c q = Except.ok []) := by
  cases db with
  | none =>
    exact ⟨⟨fun _ => rfl, fun _ => rfl⟩, ⟨fun _ => rfl, fun _ => rfl⟩,
      fun d hd => Option.noConfusion hd⟩
  | some d =>
    refine ⟨⟨?_, fun hd => Option.noConfusion hd⟩,
      ⟨?_, fun hd => Option.noConfusion hd⟩, ?_⟩
    · intro hcontra
      simp only [list_products] at hcontra
      split at hcontra <;> simp_all
    · intro hcontra
      simp only [seed_products] at hcontra
      repeat' split at hcontra
      all_goals simp_all
    · intro d2 hd2 hempty
      injection hd2 with hd2
      subst hd2
      simp [list_products, get_documents, hempty, mapFromMongo]

/-- Witness for C3 at concrete inputs. -/
theorem listSeed_error_iff_db_none_witness :
    list_products none none none =
      Except.error (ApiError.httpException 500 "Database not available") ∧
    getColl emptyDB "product" = [] ∧
    list_products (some emptyDB) none none = Except.ok [] :=
  ⟨(listSeed_error_iff_db_none none none none).1.mpr rfl, rfl,
   (listSeed_error_iff_db_none (some emptyDB) none none).2.2 emptyDB rfl rfl⟩

/-- C1: for a non-empty query string `q`, every product returned by
`GET /api/products` has a title containing `q` as a substring,
case-insensitively. -/
theorem list_products_q_substring (d : DB) (c : Option String) (q : String)
    (l : List ProductOut) (hq : q ≠ "")
    (h : list_products (some d) c (some q) = Except.ok l) :
    ∀ p ∈ l, containsCI p.title q = true := by
  intro p hp
  have htq : truthy (some q) = true := by simp [truthy, hq]
  simp only [list_products, htq, if_true] at h
  split at h
  · exact Except.noConfusion h
  · rename_i l2 hm
    injection h with h
    subst h
    obtain ⟨doc, hdoc, hfm⟩ := mapFromMongo_mem hm p hp
    obtain ⟨hmem, hmatch⟩ := List.mem_filter.mp (by simpa [get_documents] using hdoc)
    obtain ⟨t, hdt, hct⟩ := matchesFilt_title rfl hmatch
    rw [from_mongo_title hfm hdt]
    exact hct

/-- Witness for C1: on a freshly seeded store, querying `q = "veil"` only
returns titles containing "veil" case-insensitively. -/
theorem list_products_q_substring_witness :
    "veil" ≠ "" ∧
    ∀ p ∈ [(⟨"2", "Aurora Veil Skirt",
        some "Layered tulle midi skirt that shifts color like the northern lights.",
        98, "Bottoms",
        some "https://images.unsplash.com/photo-1503342330407-5a4cd4fd63d6?q=80&w=1600&auto=format&fit=crop",
        some "Bestseller", some "#EDE7F6"⟩ : ProductOut)],
      containsCI p.title "veil" = true := by
  refine ⟨by decide, ?_⟩
  refine list_products_q_substring
    ⟨setColl emptyDB.colls "product" (docsFrom seed_data 0), 6⟩ none "veil" _
    (by decide) ?_
  rfl

/-- C4: for a non-empty `category` filter, every returned product's category
equals the filter exactly, and a simultaneously provided non-empty `q` must
also match the title (logical AND). -/
theorem list_products_category_exact (d : DB) (c : String) (q : Option String)
    (l : List ProductOut) (hc : c ≠ "")
    (h : list_products (some d) (some c) q = Except.ok l) :
    ∀ p ∈ l, p.category = c ∧
      ∀ s : String, q = some s → s ≠ "" → containsCI p.title s = true := by
  intro p hp
  have htc : truthy (some c) = true := by simp [truthy, hc]
  simp only [list_products, htc, if_true] at h
  split at h
  · exact Except.noConfusion h
  · rename_i l2 hm
    injection h with h
    subst h
    obtain ⟨doc, hdoc, hfm⟩ := mapFromMongo_mem hm p hp
    obtain ⟨hmem, hmatch⟩ := List.mem_filter.mp (by simpa [get_documents] using hdoc)
    constructor
    · exact from_mongo_category hfm (matchesFilt_category rfl hmatch)
    · intro s hs hsne
      subst hs
      have hts : truthy (some s) = true := by simp [truthy, hsne]
      simp only [hts, if_true] at hmatch
      obtain ⟨t, hdt, hct⟩ := matchesFilt_title rfl hmatch
      rw [from_mongo_title hfm hdt]
      exact hct

/-- Witness for C4: on a freshly seeded store, filtering on category
"Dresses" only returns products in that category. -/
theorem list_products_category_exact_witness :
    "Dresses" ≠ "" ∧
    ∀ p ∈ [(⟨"0", "Moonlit Petal Gown",
        some "Flowing chiffon gown with iridescent petals and a subtle stardust shimmer.",
        189, "Dresses",
        some "https://images.unsplash.com/photo-1520975922284-7bcd429ebfd5?q=80&w=1600&auto=format&fit=crop",
        some "New", some "#FDE3E3"⟩ : ProductOut)],
      p.category = "Dresses" ∧
      ∀ s : String, (none : Option String) = some s → s ≠ "" →
        containsCI p.title s = true := by
  refine ⟨by decide, ?_⟩
  refine list_products_category_exact
    ⟨setColl emptyDB.colls "product" (docsFrom seed_data 0), 6⟩ "Dresses" none _
    (by decide) ?_
  rfl

/-- C2: seeding a store that already holds a product inserts nothing, leaves
the catalog unchanged and returns the pre-call catalog; seeding twice from an
empty catalog equals seeding once and ends with 6 products, not 12. -/
theorem seed_nonempty_noop (d : DB) (h : getColl d "product" ≠ []) :
    seed_products (some d) =
      (match mapFromMongo (getColl d "product") with
       | Except.error e => Except.error (ApiError.internalServerError e)
       | Except.ok l => Except.ok (d, l)) ∧
    ((∀ doc ∈ getColl d "product", docWellTyped doc = true) →
      ∃ l, seed_products (some d) = Except.ok (d, l) ∧
        mapFromMongo (getColl d "product") = Except.ok l) ∧
    (do
      let r1 ← seed_products (some emptyDB)
      seed_products (some r1.1)) = seed_products (some emptyDB) ∧
    (match seed_products (some emptyDB) with
     | Except.ok (_, l) => l.length
     | Except.error _ => 0) = 6 := by
  have hex : ((getColl d "product").take 1).isEmpty = false := by
    cases hcoll : getColl d "product" with
    | nil => exact absurd hcoll h
    | cons a t => rfl
  have hmain : seed_products (some d) =
      (match mapFromMongo (getColl d "product") with
       | Except.error e => Except.error (ApiError.internalServerError e)
       | Except.ok l => Except.ok (d, l)) := by
    simp only [seed_products, hex, Bool.false_eq_true, if_false, get_documents_empty]
  refine ⟨hmain, ?_, by decide, by decide⟩
  intro hwt
  obtain ⟨l, hl⟩ := mapFromMongo_total hwt
  refine ⟨l, ?_, hl⟩
  rw [hmain, hl]

/-- Witness for C2: seeding an already-seeded store is a no-op returning the
existing catalog. -/
theorem seed_nonempty_noop_witness :
    getColl ⟨[("product", docsFrom seed_data 0)], 6⟩ "product" ≠ [] ∧
    seed_products (some ⟨[("product", docsFrom seed_data 0)], 6⟩) =
      Except.ok (⟨[("product", docsFrom seed_data 0)], 6⟩, viewsFrom seed_data 0) :=
  ⟨by decide,
   ((seed_nonempty_noop ⟨[("product", docsFrom seed_data 0)], 6⟩ (by decide)).1).trans rfl⟩

/-- C7: seeding an empty catalog inserts exactly the 6 predefined sample
products in order, then re-reads and returns the full catalog. -/
theorem seed_empty_inserts (d : DB) (h : getColl d "product" = []) :
    ∃ (d1 : DB) (l : List ProductOut),
      seed_products (some d) = Except.ok (d1, l) ∧
      getColl d1 "product" = docsFrom seed_data d.nextId ∧
      (docsFrom seed_data d.nextId).length = 6 ∧
      mapFromMongo (getColl d1 "product") = Except.ok l ∧
      l.map (fun p : ProductOut => p.title) =
        ["Moonlit Petal Gown", "Sylvan Whisper Blouse", "Aurora Veil Skirt",
         "Glimmerleaf Headband", "Stardrop Perfume Satchel", "Petal Mist Kimono"] := by
  have hex : ((getColl d "product").take 1).isEmpty = true := by rw [h]; rfl
  have hcoll :
      getColl (seed_data.foldl (fun st item => (create_document "product" item st).1) d)
        "product" = docsFrom seed_data d.nextId := by
    rw [(foldl_create seed_data d).1, h]
    rfl
  refine ⟨seed_data.foldl (fun st item => (create_document "product" item st).1) d,
    viewsFrom seed_data d.nextId, ?_, hcoll, rfl, ?_, rfl⟩
  · simp only [seed_products, hex, if_true, get_documents_empty, hcoll,
      mapFromMongo_docsFrom]
  · rw [hcoll, mapFromMongo_docsFrom]

/-- Witness for C7 at the concrete empty store. -/
theorem seed_empty_inserts_witness :
    getColl emptyDB "product" = [] ∧
    ∃ (d1 : DB) (l : List ProductOut),
      seed_products (some emptyDB) = Except.ok (d1, l) ∧
      getColl d1 "product" = docsFrom seed_data emptyDB.nextId ∧
      (docsFrom seed_data emptyDB.nextId).length = 6 ∧
      mapFromMongo (getColl d1 "product") = Except.ok l ∧
      l.map (fun p : ProductOut => p.title) =
        ["Moonlit Petal Gown", "Sylvan Whisper Blouse", "Aurora Veil Skirt",
         "Glimmerleaf Headband", "Stardrop Perfume Satchel", "Petal Mist Kimono"] :=
  ⟨rfl, seed_empty_inserts emptyDB rfl⟩

/-- C5 counterexample: `from_mongo` is not total — on a document whose price
field holds null, `float(None)` raises a `TypeError`. -/
theorem from_mongo_not_total :
    ProductOut.from_mongo [("price", Value.null)] =
      Except.error "TypeError: float() argument must be a string or a real number, not NoneType" :=
  rfl

/-- C5 (amended): `from_mongo` succeeds on every document whose fields are
well-typed for the product view (price absent or numeric, title and category
absent or strings, the optional fields absent, null or strings). -/
theorem from_mongo_total_wellTyped (doc : Doc) (h : docWellTyped doc = true) :
    ∃ p : ProductOut, ProductOut.from_mongo doc = Except.ok p :=
  from_mongo_ok_of_wellTyped doc h

/-- Witness for the amended C5 at a concrete well-typed document. -/
theorem from_mongo_total_wellTyped_witness :
    docWellTyped [("title", Value.str "Hat"), ("price", Value.num 5)] = true ∧
    ∃ p, ProductOut.from_mongo [("title", Value.str "Hat"), ("price", Value.num 5)] =
      Except.ok p :=
  ⟨rfl, from_mongo_total_wellTyped _ rfl⟩

/-- C6: `from_mongo` maps a missing title to the empty string, a missing
price to 0, each missing optional field to `none`, and renders the
store-assigned identifier as a string. -/
theorem from_mongo_defaults (doc : Doc) (p : ProductOut)
    (h : ProductOut.from_mongo doc = Except.ok p) :
    (docGet doc "title" = none → p.title = "") ∧
    (docGet doc "price" = none → p.price = 0) ∧
    (docGet doc "description" = none → p.description = none) ∧
    (docGet doc "image" = none → p.image = none) ∧
    (docGet doc "tag" = none → p.tag = none) ∧
    (docGet doc "color" = none → p.color = none) ∧
    p.id = pyStrOpt (docGet doc "_id") ∧
    (∀ n : Nat, docGet doc "_id" = some (Value.objId n) → p.id = toString n) := by
  obtain ⟨hpr, hti, hde, hca, him, htg, hco, hid⟩ := from_mongo_ok h
  refine ⟨?_, ?_, ?_, ?_, ?_, ?_, hid, ?_⟩
  · intro hn
    rw [hn] at hti
    simp only [strField, Except.ok.injEq] at hti
    exact hti.symm
  · intro hn
    rw [hn] at hpr
    simp only [Option.getD_none, pyFloat, Except.ok.injEq] at hpr
    exact hpr.symm
  · intro hn
    rw [hn] at hde
    simp only [optStrField, Except.ok.injEq] at hde
    exact hde.symm
  · intro hn
    rw [hn] at him
    simp only [optStrField, Except.ok.injEq] at him
    exact him.symm
  · intro hn
    rw [hn] at htg
    simp only [optStrField, Except.ok.injEq] at htg
    exact htg.symm
  · intro hn
    rw [hn] at hco
    simp only [optStrField, Except.ok.injEq] at hco
    exact hco.symm
  · intro n hn
    rw [hid, hn]
    rfl

/-- Witness for C6 at a document holding only a store-assigned id. -/
theorem from_mongo_defaults_witness :
    ProductOut.from_mongo [("_id", Value.objId 5)] =
      Except.ok ⟨"5", "", none, 0, "", none, none, none⟩ ∧
    (⟨"5", "", none, 0, "", none, none, none⟩ : ProductOut).title = "" ∧
    (⟨"5", "", none, 0, "", none, none, none⟩ : ProductOut).price = 0 ∧
    (⟨"5", "", none, 0, "", none, none, none⟩ : ProductOut).id = toString (5 : Nat) :=
  ⟨rfl,
   (from_mongo_defaults [("_id", Value.objId 5)]
      ⟨"5", "", none, 0, "", none, none, none⟩ rfl).1 rfl,
   (from_mongo_defaults [("_id", Value.objId 5)]
      ⟨"5", "", none, 0, "", none, none, none⟩ rfl).2.1 rfl,
   (from_mongo_defaults [("_id", Value.objId 5)]
      ⟨"5", "", none, 0, "", none, none, none⟩ rfl).2.2.2.2.2.2.2 5 rfl⟩

/-- C10: a document without a category field yields a view whose category is
the empty string, not null. -/
theorem from_mongo_missing_category (doc : Doc) (p : ProductOut)
    (h : ProductOut.from_mongo doc = Except.ok p)
    (hc : docGet doc "category" = none) : p.category = "" := by
  have hca := (from_mongo_ok h).2.2.2.1
  rw [hc] at hca
  simp only [strField, Except.ok.injEq] at hca
  exact hca.symm

/-- Witness for C10 at a document holding only a title. -/
theorem from_mongo_missing_category_witness :
    ProductOut.from_mongo [("title", Value.str "X")] =
      Except.ok ⟨"None", "X", none, 0, "", none, none, none⟩ ∧
    docGet [("title", Value.str "X")] "category" = none ∧
    (⟨"None", "X", none, 0, "", none, none, none⟩ : ProductOut).category = "" :=
  ⟨rfl, rfl,
   from_mongo_missing_category [("title", Value.str "X")]
     ⟨"None", "X", none, 0, "", none, none, none⟩ rfl rfl⟩

/-- C8: the diagnostics endpoint is total for every store state; a probe
failure is reported as a truncated status string and at most the first 10
collection names are returned. -/
theorem test_database_never_fails (db : Option DBHandle) (urlSet nameSet : Bool) :
    (test_database db urlSet nameSet).backend = "✅ Running" ∧
    (test_database db urlSet nameSet).collections.length ≤ 10 ∧
    (∀ h : DBHandle, db = some h →
      (∀ cols, h.listCollectionNames = Except.ok cols →
        (test_database db urlSet nameSet).collections = cols.take 10 ∧
        (test_database db urlSet nameSet).database = "✅ Connected & Working") ∧
      (∀ e, h.listCollectionNames = Except.error e →
        (test_database db urlSet nameSet).database =
          "⚠️  Connected but Error: " ++ e.take 50)) ∧
    (db = none →
      (test_database db urlSet nameSet).database =
        "⚠️  Available but not initialized") := by
  cases db with
  | none =>
    exact ⟨rfl, by simp [test_database],
      fun h hcontra => Option.noConfusion hcontra, fun _ => rfl⟩
  | some hd =>
    cases hl : hd.listCollectionNames with
    | ok cols =>
      refine ⟨by simp [test_database, hl], ?_, ?_, fun hcontra => Option.noConfusion hcontra⟩
      · simp only [test_database, hl, List.length_take]
        exact min_le_left _ _
      · intro h hh
        injection hh with hh
        subst hh
        refine ⟨?_, ?_⟩
        · intro cols2 hc2
          rw [hl] at hc2
          injection hc2 with hc2
          subst hc2
          exact ⟨by simp [test_database, hl], by simp [test_database, hl]⟩
        · intro e he
          rw [hl] at he
          exact Except.noConfusion he
    | error e =>
      refine ⟨by simp [test_database, hl], by simp [test_database, hl], ?_,
        fun hcontra => Option.noConfusion hcontra⟩
      intro h hh
      injection hh with hh
      subst hh
      refine ⟨?_, ?_⟩
      · intro cols2 hc2
        rw [hl] at hc2
        exact Except.noConfusion hc2
      · intro e2 he2
        rw [hl] at he2
        injection he2 with he2
        subst he2
        simp [test_database, hl]

/-- Witness for C8: concrete failing and succeeding probes. -/
theorem test_database_never_fails_witness :
    (test_database (some ⟨"craftsdb", Except.error "boom"⟩) true false).database =
      "⚠️  Connected but Error: " ++ ("boom").take 50 ∧
    (test_database (some ⟨"craftsdb", Except.ok ["product", "users"]⟩) true true).collections =
      ["product", "users"].take 10 :=
  ⟨((test_database_never_fails (some ⟨"craftsdb", Except.error "boom"⟩) true
      false).2.2.1 _ rfl).2 "boom" rfl,
   (((test_database_never_fails (some ⟨"craftsdb", Except.ok ["product", "users"]⟩)
      true true).2.2.1 _ rfl).1 _ rfl).1⟩

/-- C9: an empty-string `category` or `q` is falsy, so it applies no filter;
with both parameters empty the whole catalog is queried with the empty
filter. -/
theorem empty_params_no_filter (db : Option DB) (c q : Option String) :
    list_products db (some "") q = list_products db none q ∧
    list_products db c (some "") = list_products db c none ∧
    (∀ d : DB, list_products (some d) (some "") (some "") =
      match mapFromMongo (getColl d "product") with
      | Except.ok l => Except.ok l
      | Except.error e => Except.error (ApiError.internalServerError e)) ∧
    (∀ d : DB, (∀ doc ∈ getColl d "product", docWellTyped doc = true) →
      ∃ l, list_products (some d) (some "") (some "") = Except.ok l ∧
        mapFromMongo (getColl d "product") = Except.ok l) := by
  have h0 : truthy (some "") = false := by decide
  have hf : (⟨if truthy (some "") then some "" else none,
             if truthy (some "") then some "" else none⟩ : Filt) = Filt.empty := by
    simp [h0, Filt.empty]
  have hwhole : ∀ d : DB, list_products (some d) (some "") (some "") =
      match mapFromMongo (getColl d "product") with
      | Except.ok l => Except.ok l
      | Except.error e => Except.error (ApiError.internalServerError e) := by
    intro d
    simp only [list_products, hf, get_documents_empty]
    cases mapFromMongo (getColl d "product") <;> rfl
  refine ⟨?_, ?_, hwhole, ?_⟩
  · cases db with
    | none => rfl
    | some d => simp [list_products, h0]
  · cases db with
    | none => rfl
    | some d => simp [list_products, h0]
  · intro d hwt
    obtain ⟨l, hl⟩ := mapFromMongo_total hwt
    refine ⟨l, ?_, hl⟩
    rw [hwhole d, hl]

/-- Witness for C9 on a freshly seeded store: empty query parameters return
the whole 6-product catalog. -/
theorem empty_params_no_filter_witness :
    (∀ doc ∈ getColl ⟨[("product", docsFrom seed_data 0)], 6⟩ "product",
        docWellTyped doc = true) ∧
    ∃ l, list_products (some ⟨[("product", docsFrom seed_data 0)], 6⟩)
          (some "") (some "") = Except.ok l ∧
      mapFromMongo (getColl ⟨[("product", docsFrom seed_data 0)], 6⟩ "product") =
        Except.ok l :=
  ⟨by decide,
   (empty_params_no_filter none none none).2.2.2
     ⟨[("product", docsFrom seed_data 0)], 6⟩ (by decide)⟩
